import Mathlib

/-
Verification of the version-gated typedef shim
src/vendor/libvirt.org/go/libvirt/libvirt_admin_generated_typedefs.h

The header consists of a pragma once line followed by six typedef
declarations, each wrapped in its own conditional block guarded by
if !LIBVIR_CHECK_VERSION(2, 0, 0).  We embed the header as a list of
guarded typedefs, embed the relevant fragment of C preprocessor
conditional evaluation, and prove the version-gating properties.
-/

namespace LibvirtAdminTypedefs

/-- A target library version, as a (major, minor, micro) triple. -/
structure Version where
  major : Nat
  minor : Nat
  micro : Nat
deriving DecidableEq

/-- C types, as far as this header needs them: a reference to a struct
tag, a reference to a previously declared type name, and a pointer type. -/
inductive CType where
  | structTag (tag : String)
  | named (n : String)
  | ptr (t : CType)
deriving DecidableEq

/-- One typedef declaration: introduces name as an alias for type. -/
structure Typedef where
  name : String
  type : CType
deriving DecidableEq

/-- The fragment of C preprocessor conditional constant expressions this
header uses: integer literals, logical negation, and a function-like
invocation of a named feature test applied to three integer arguments. -/
inductive PPExpr where
  | lit (n : Int)
  | lnot (e : PPExpr)
  | call (name : String) (a b c : Int)
deriving DecidableEq

/-- A build environment: which function-like feature tests of three
arguments are defined, and their values. -/
def PPEnv : Type := String → Option (Int → Int → Int → Int)

/-- Evaluate a conditional constant expression under a build environment.
Following C preprocessor semantics, a function-like invocation whose name
the environment does not define is not a valid constant expression (the
bare identifier would be replaced by 0 and the residual call syntax
rejected), so evaluation fails with the offending name instead of
selecting a branch. -/
def evalPPExpr (env : PPEnv) : PPExpr → Except String Int
  | .lit n => .ok n
  | .lnot e =>
    match evalPPExpr env e with
    | .ok v => .ok (if v = 0 then 1 else 0)
    | .error msg => .error msg
  | .call name a b c =>
    match env name with
    | some f => .ok (f a b c)
    | none => .error name

/-- One conditional block of the header: a guard expression and the
typedef it protects.  Each of the six blocks in the source holds exactly
one typedef. -/
structure GuardedTypedef where
  guard : PPExpr
  td : Typedef
deriving DecidableEq

/-- typedef struct _virAdmClient virAdmClient; -/
def virAdmClientTd : Typedef := ⟨"virAdmClient", CType.structTag "_virAdmClient"⟩

/-- typedef struct _virAdmConnect virAdmConnect; -/
def virAdmConnectTd : Typedef := ⟨"virAdmConnect", CType.structTag "_virAdmConnect"⟩

/-- typedef struct _virAdmServer virAdmServer; -/
def virAdmServerTd : Typedef := ⟨"virAdmServer", CType.structTag "_virAdmServer"⟩

/-- typedef virAdmClient * virAdmClientPtr; -/
def virAdmClientPtrTd : Typedef := ⟨"virAdmClientPtr", CType.ptr (CType.named "virAdmClient")⟩

/-- typedef virAdmConnect * virAdmConnectPtr; -/
def virAdmConnectPtrTd : Typedef := ⟨"virAdmConnectPtr", CType.ptr (CType.named "virAdmConnect")⟩

/-- typedef virAdmServer * virAdmServerPtr; -/
def virAdmServerPtrTd : Typedef := ⟨"virAdmServerPtr", CType.ptr (CType.named "virAdmServer")⟩

/-- The guard used by every block: if !LIBVIR_CHECK_VERSION(2, 0, 0). -/
def check200Guard : PPExpr := .lnot (.call "LIBVIR_CHECK_VERSION" 2 0 0)

/-- The six guarded typedef blocks of the header, in source order. -/
def shimEntries : List GuardedTypedef :=
  [⟨check200Guard, virAdmClientTd⟩,
   ⟨check200Guard, virAdmConnectTd⟩,
   ⟨check200Guard, virAdmServerTd⟩,
   ⟨check200Guard, virAdmClientPtrTd⟩,
   ⟨check200Guard, virAdmConnectPtrTd⟩,
   ⟨check200Guard, virAdmServerPtrTd⟩]

/-- All six typedefs of the header, in source order. -/
def shimDecls : List Typedef := shimEntries.map (·.td)

/-- Run the conditional blocks: a block contributes its typedef exactly
when its guard evaluates to a nonzero value; a guard that fails to
evaluate aborts the compilation. -/
def emitGuarded (env : PPEnv) : List GuardedTypedef → Except String (List Typedef)
  | [] => .ok []
  | g :: rest =>
    match evalPPExpr env g.guard, emitGuarded env rest with
    | .ok v, .ok tail => .ok (if v = 0 then tail else g.td :: tail)
    | .error msg, _ => .error msg
    | _, .error msg => .error msg

/-- Modelled from the spec: the external LIBVIR_CHECK_VERSION feature
test, supplied by the target library headers and absent from src.  Given
three integer components it reports whether the configured target library
version is at least that version. -/
def versionAtLeast (t : Version) (a b c : Int) : Bool :=
  decide ((t.major : Int) > a ∨
    ((t.major : Int) = a ∧ ((t.minor : Int) > b ∨
      ((t.minor : Int) = b ∧ (t.micro : Int) ≥ c))))

/-- Version order used by the spec: t is strictly below (a, b, c). -/
def versionBelow (t : Version) (a b c : Nat) : Prop :=
  t.major < a ∨ (t.major = a ∧ (t.minor < b ∨ (t.minor = b ∧ t.micro < c)))

instance (t : Version) (a b c : Nat) : Decidable (versionBelow t a b c) := by
  unfold versionBelow; infer_instance

/-- The build environment configured against target library version t:
it defines exactly the LIBVIR_CHECK_VERSION feature test. -/
def stdEnv (t : Version) : PPEnv := fun n =>
  if n = "LIBVIR_CHECK_VERSION"
  then some (fun a b c => if versionAtLeast t a b c then 1 else 0)
  else none

/-- A build environment in which the version feature test is not defined
at all. -/
def noCheckEnv : PPEnv := fun _ => none

/-- Preprocess the shim against target library version t. -/
def preprocess (t : Version) : Except String (List Typedef) :=
  emitGuarded (stdEnv t) shimEntries

/-- The typedefs the shim contributes when compiled against version t. -/
def emittedDecls (t : Version) : List Typedef :=
  match preprocess t with
  | .ok l => l
  | .error _ => []

/-- Names introduced by a list of typedefs. -/
def declNames (l : List Typedef) : List String := l.map (·.name)

/-- The header opens with a pragma once re-inclusion guard. -/
def shimHasPragmaOnce : Bool := true

/-- Typedefs contributed by including the shim once in a translation
unit. -/
def includeOnceDecls (t : Version) : List Typedef := emittedDecls t

/-- Typedefs contributed by including the shim twice in one translation
unit: under pragma once semantics the preprocessor skips the second
inclusion entirely; without the guard its text would be processed
again. -/
def includeTwiceDecls (t : Version) : List Typedef :=
  emittedDecls t ++ (if shimHasPragmaOnce then [] else emittedDecls t)

/-- The pointee type name of a pointer-to-named-type, if any. -/
def pointeeName : CType → Option String
  | CType.ptr (CType.named p) => some p
  | _ => none

/-- Preprocessing never fails under the standard environment, and the
emission is all-or-nothing, decided by the single shared guard. -/
theorem emittedDecls_eq (t : Version) :
    emittedDecls t = if versionAtLeast t 2 0 0 then [] else shimDecls := by
  cases h : versionAtLeast t 2 0 0 <;>
    simp [emittedDecls, preprocess, emitGuarded, evalPPExpr, stdEnv,
      shimEntries, check200Guard, shimDecls, h]

/-- The spec reading of the missing feature test agrees with the strict
order: the test is false exactly when the version is strictly below the
threshold. -/
theorem atLeast200_false_iff (t : Version) :
    versionAtLeast t 2 0 0 = false ↔ versionBelow t 2 0 0 := by
  simp only [versionAtLeast, versionBelow, decide_eq_false_iff_not]
  omega

/-- C1: for each handle kind (virAdmClient, virAdmConnect, virAdmServer),
with introduced version 2.0.0, the opaque type typedef is emitted by the
shim if and only if the configured target library version is strictly
below 2.0.0, and likewise, separately, its pointer alias: at or above
2.0.0 neither declaration is emitted. -/
theorem handle_and_alias_emitted_iff_below_threshold (t : Version) :
    (virAdmClientTd ∈ emittedDecls t ↔ versionBelow t 2 0 0)
  ∧ (virAdmClientPtrTd ∈ emittedDecls t ↔ versionBelow t 2 0 0)
  ∧ (virAdmConnectTd ∈ emittedDecls t ↔ versionBelow t 2 0 0)
  ∧ (virAdmConnectPtrTd ∈ emittedDecls t ↔ versionBelow t 2 0 0)
  ∧ (virAdmServerTd ∈ emittedDecls t ↔ versionBelow t 2 0 0)
  ∧ (virAdmServerPtrTd ∈ emittedDecls t ↔ versionBelow t 2 0 0) := by
  rw [← atLeast200_false_iff, emittedDecls_eq]
  cases h : versionAtLeast t 2 0 0 <;> decide

/-- C2: every pointer alias block in the header declares its alias under
the same guard condition as a strictly earlier block that declares the
pointee type, and consequently the alias is never visible without its
pointee: whenever an alias is emitted, its base typedef is emitted too. -/
theorem alias_guarded_with_base_and_after_it (t : Version) :
    (∀ j : Fin shimEntries.length,
        (pointeeName (shimEntries.get j).td.type).isSome = true →
        ∃ i : Fin shimEntries.length, (i : Nat) < (j : Nat) ∧
          pointeeName (shimEntries.get j).td.type =
            some (shimEntries.get i).td.name ∧
          (shimEntries.get i).guard = (shimEntries.get j).guard)
  ∧ (virAdmClientPtrTd ∈ emittedDecls t → virAdmClientTd ∈ emittedDecls t)
  ∧ (virAdmConnectPtrTd ∈ emittedDecls t → virAdmConnectTd ∈ emittedDecls t)
  ∧ (virAdmServerPtrTd ∈ emittedDecls t → virAdmServerTd ∈ emittedDecls t) := by
  refine ⟨by decide, ?_⟩
  rw [emittedDecls_eq]
  cases h : versionAtLeast t 2 0 0 <;> decide

/-- C2 witness: the client alias block at position 3 names a guard and a
pointee supplied by a strictly earlier block; instantiated against
version 1.9.0. -/
theorem alias_guarded_with_base_and_after_it_witness :
    ∃ i : Fin shimEntries.length, (i : Nat) < (3 : Nat) ∧
      pointeeName (shimEntries.get ⟨3, by decide⟩).td.type =
        some (shimEntries.get i).td.name ∧
      (shimEntries.get i).guard = (shimEntries.get ⟨3, by decide⟩).guard :=
  (alias_guarded_with_base_and_after_it ⟨1, 9, 0⟩).1 ⟨3, by decide⟩ (by decide)

/-- C3: compiled against version 1.9.0 the shim contributes exactly the
six symbols, in source order and each exactly once; compiled against
version 2.0.0 it contributes no symbols. -/
theorem six_symbols_at_190_none_at_200 :
    declNames (emittedDecls ⟨1, 9, 0⟩) =
      ["virAdmClient", "virAdmConnect", "virAdmServer",
       "virAdmClientPtr", "virAdmConnectPtr", "virAdmServerPtr"]
  ∧ (declNames (emittedDecls ⟨1, 9, 0⟩)).Nodup
  ∧ emittedDecls ⟨2, 0, 0⟩ = [] := by decide

/-- C4: each pointer alias typedef is literally a pointer to its handle
type, and in every compilation pass the alias is emitted only when the
handle typedef itself is emitted. -/
theorem alias_is_pointer_to_base_and_needs_base (t : Version) :
    virAdmClientPtrTd.type = CType.ptr (CType.named virAdmClientTd.name)
  ∧ virAdmConnectPtrTd.type = CType.ptr (CType.named virAdmConnectTd.name)
  ∧ virAdmServerPtrTd.type = CType.ptr (CType.named virAdmServerTd.name)
  ∧ (virAdmClientPtrTd ∈ emittedDecls t → virAdmClientTd ∈ emittedDecls t)
  ∧ (virAdmConnectPtrTd ∈ emittedDecls t → virAdmConnectTd ∈ emittedDecls t)
  ∧ (virAdmServerPtrTd ∈ emittedDecls t → virAdmServerTd ∈ emittedDecls t) := by
  rw [emittedDecls_eq]
  cases h : versionAtLeast t 2 0 0 <;> decide

/-- C4 witness: against version 1.0.0 the client alias is emitted, and the
theorem then forces the client handle typedef to be emitted as well. -/
theorem alias_is_pointer_to_base_and_needs_base_witness :
    virAdmClientTd ∈ emittedDecls ⟨1, 0, 0⟩ :=
  (alias_is_pointer_to_base_and_needs_base ⟨1, 0, 0⟩).2.2.2.1 (by decide)

/-- C5: each pointer alias name is exactly the base type name with the
literal suffix Ptr appended. -/
theorem alias_name_is_base_name_with_suffix :
    virAdmClientPtrTd.name = virAdmClientTd.name ++ "Ptr"
  ∧ virAdmConnectPtrTd.name = virAdmConnectTd.name ++ "Ptr"
  ∧ virAdmServerPtrTd.name = virAdmServerTd.name ++ "Ptr" := by decide

/-- C6: for every target version, including the shim twice in one
translation unit contributes exactly the same typedefs as including it
once, and never a duplicate name. -/
theorem double_inclusion_idempotent (t : Version) :
    includeTwiceDecls t = includeOnceDecls t
  ∧ (declNames (includeTwiceDecls t)).Nodup := by
  constructor
  · simp [includeTwiceDecls, includeOnceDecls, shimHasPragmaOnce]
  · simp only [includeTwiceDecls, shimHasPragmaOnce, if_pos, List.append_nil,
      emittedDecls_eq]
    cases h : versionAtLeast t 2 0 0 <;> decide

/-- C7: at target version exactly 2.0.0 the shim suppresses all of its
declarations: preprocessing succeeds and contributes nothing. -/
theorem suppressed_at_threshold :
    preprocess ⟨2, 0, 0⟩ = Except.ok [] ∧ emittedDecls ⟨2, 0, 0⟩ = [] := ⟨rfl, rfl⟩

/-- C8: any target version strictly below the 2.0.0 threshold, in
particular the version immediately one patch level below it, makes the
shim emit the typedef and pointer alias of every handle kind. -/
theorem emits_all_below_threshold (t : Version) (h : versionBelow t 2 0 0) :
    emittedDecls t = shimDecls := by
  rw [emittedDecls_eq, if_neg]
  intro hv
  rw [← atLeast200_false_iff] at h
  simp [hv] at h

/-- C8 witness: version 1.999.999, the numeric predecessor of 2.0.0 one
patch level below it, is strictly below the threshold and receives all
six declarations. -/
theorem emits_all_below_threshold_witness :
    versionBelow ⟨1, 999, 999⟩ 2 0 0 ∧ emittedDecls ⟨1, 999, 999⟩ = shimDecls :=
  ⟨by decide, emits_all_below_threshold ⟨1, 999, 999⟩ (by decide)⟩

/-- C9: in a build environment that does not define the version feature
test at all, preprocessing the shim fails at compile time on the first
guard rather than selecting one of the two branches. -/
theorem fails_without_version_feature_test :
    emitGuarded noCheckEnv shimEntries = Except.error "LIBVIR_CHECK_VERSION" := rfl

/-- C10: every guard in the file is the identical test of version
(2, 0, 0), and hence emission is all or nothing: every target version
receives either all six typedefs or none, never a partial subset. -/
theorem uniform_guards_all_or_nothing (t : Version) :
    shimEntries.map (·.guard) = List.replicate 6 check200Guard
  ∧ (emittedDecls t = shimDecls ∨ emittedDecls t = []) := by
  refine ⟨by decide, ?_⟩
  rw [emittedDecls_eq]
  cases h : versionAtLeast t 2 0 0
  · exact Or.inl (by simp)
  · exact Or.inr (by simp)

end LibvirtAdminTypedefs
